import Mathlib

/-!
Verification of the remote job lifecycle orchestrator of `sre-journey`
(`src/labs/ingestion_validator.py`, `src/labs/search_to_csv.py`,
`src/labs/W5-DoD2-Burnrate.py`) against its natural-language specification.

The Python code is shallowly embedded: JSON values are an inductive type,
Python truthiness and subscript access are explicit partial operations
returning `Option`, time is modelled by a trace of clock readings (one per
deadline check of the poll loop), and the HTTP transport is an environment
mapping each request to its response.  Exceptions become explicit outcome
constructors.
-/

/-- A JSON value as produced by `resp.json()` / `json` module.  Numbers use
`ℚ` (the claims never depend on float rounding). Object fields are an
association list in insertion order, keys unique. -/
inductive Json where
  | null : Json
  | bool (b : Bool) : Json
  | num (q : ℚ) : Json
  | str (s : String) : Json
  | arr (xs : List Json) : Json
  | obj (kvs : List (String × Json)) : Json

/-- Python truthiness `bool(x)` of a JSON value: `None`, `False`, `0`, `""`,
`[]`, `{}` are falsy, everything else truthy. -/
def pyBool : Json → Bool
  | .null => false
  | .bool b => b
  | .num q => q ≠ 0
  | .str s => s ≠ ""
  | .arr xs => !xs.isEmpty
  | .obj kvs => !kvs.isEmpty

/-- Python `d[key]` for a string key: succeeds only on a dict that has the
key (JSON object keys are strings, so string subscripts on lists, strings,
numbers raise `TypeError`/`KeyError`, modelled as `none`). -/
def pySub (j : Json) (key : String) : Option Json :=
  match j with
  | .obj kvs => (kvs.find? (fun kv => kv.1 = key)).map (·.2)
  | _ => none

/-- Python `x[0]`: first element of a list; first character of a non-empty
string (a further string subscript on that character then fails); raises on
everything else (dicts from JSON have no integer keys), modelled as `none`. -/
def pySub0 : Json → Option Json
  | .arr (x :: _) => some (x)
  | .str s => if s = "" then none else some (.str (String.singleton (s.get 0)))
  | _ => none

/-- Python `d.get(key)`: `None` when the key is absent; raises
`AttributeError` on a non-dict receiver (modelled as `none`; a present key
or an absent key on a dict is `some`). -/
def pyDictGet (j : Json) (key : String) : Option Json :=
  match j with
  | .obj kvs => some (((kvs.find? (fun kv => kv.1 = key)).map (·.2)).getD .null)
  | _ => none

/-- Escape one character as `json.dumps` does (quote, backslash, control
characters). -/
def jsonEscapeChar (c : Char) : String :=
  if c = '"' then "\\\""
  else if c = '\\' then "\\\\"
  else if c = '\n' then "\\n"
  else if c = '\t' then "\\t"
  else if c = '\r' then "\\r"
  else String.singleton c

/-- `json.dumps` on a string body. -/
def jsonEscape (s : String) : String :=
  String.join (s.data.map jsonEscapeChar)

/-- Serialization of a rational the way `json.dumps` prints a number (exact
integers without a decimal point; the claims never exercise the non-integer
case, which is rendered as a fraction here). -/
def jsonNumRepr (q : ℚ) : String :=
  if q.den = 1 then toString q.num else toString q.num ++ "/" ++ toString q.den

mutual

/-- `json.dumps(data)`: canonical serialization with default separators. -/
def jsonDumps : Json → String
  | .null => "null"
  | .bool b => if b then "true" else "false"
  | .num q => jsonNumRepr q
  | .str s => "\"" ++ jsonEscape s ++ "\""
  | .arr xs => "[" ++ jsonDumpsList xs ++ "]"
  | .obj kvs => "\x7b" ++ jsonDumpsObj kvs ++ "\x7d"

def jsonDumpsList : List Json → String
  | [] => ""
  | [x] => jsonDumps x
  | x :: rest => jsonDumps x ++ ", " ++ jsonDumpsList rest

def jsonDumpsObj : List (String × Json) → String
  | [] => ""
  | [kv] => "\"" ++ jsonEscape kv.1 ++ "\": " ++ jsonDumps kv.2
  | kv :: rest => "\"" ++ jsonEscape kv.1 ++ "\": " ++ jsonDumps kv.2 ++ ", " ++ jsonDumpsObj rest

end

/-- An HTTP response as seen by the scripts: either a transport-level
failure (connection / SSL / per-request timeout, raised by `requests`), or a
served response with a status code and a body that `resp.json()` either
parses (`some`) or fails to parse (`none`). -/
inductive HttpResponse where
  | transportError : HttpResponse
  | response (status : Nat) (body : Option Json) : HttpResponse

/-- `resp.raise_for_status()` raises for status codes ≥ 400. -/
def raisesForStatus (status : Nat) : Bool := 400 ≤ status

namespace IV
/-! Embedding of `src/labs/ingestion_validator.py`. -/

/-- The form payload built by `create_search_job` (lines 79–83): `search`
always; `earliest_time` / `latest_time` added only when the Python value is
truthy (`if earliest:` — skipped both for `None` and for the empty string).
Insertion order of the dict is kept as a list. -/
def submitPayload (search : String) (earliest latest : Option String) :
    List (String × String) :=
  let payload := [("search", search)]
  let payload := match earliest with
    | some e => if e ≠ "" then payload ++ [("earliest_time", e)] else payload
    | none => payload
  match latest with
  | some l => if l ≠ "" then payload ++ [("latest_time", l)] else payload
  | none => payload

/-- Result of `create_search_job`: the returned SID (any truthy JSON value,
Python does not enforce the `str` annotation), or one of the raised errors. -/
inductive SubmitResult where
  | ok (sid : Json) : SubmitResult
  | noSid (preview : String) : SubmitResult
  | httpError (code : Nat) : SubmitResult
  | parseError : SubmitResult
  | attrError : SubmitResult
  | transportError : SubmitResult

/-- `create_search_job` (lines 75–91) applied to the transport's response to
its single POST: `raise_for_status`, `resp.json()`, `data.get("sid")`,
`if not sid: raise RuntimeError(... json.dumps(data)[:300])`. -/
def create_search_job (resp : HttpResponse) : SubmitResult :=
  match resp with
  | .transportError => .transportError
  | .response status body =>
    if raisesForStatus status then .httpError status
    else match body with
      | none => .parseError
      | some data =>
        match pyDictGet data "sid" with
        | none => .attrError
        | some sid =>
          if pyBool sid then .ok sid
          else .noSid ((jsonDumps data).take 300)

/-- `data["entry"][0]["content"]["isDone"]` (line 108): the subscript chain
inside the `try`; any failed access raises (KeyError / IndexError /
TypeError), all caught by the bare `except`. -/
def statusIsDone (data : Json) : Option Json :=
  (((pySub data "entry").bind pySub0).bind (pySub · "content")).bind
    (pySub · "isDone")

/-- The environment one run of `poll_until_done` executes in: `responses k`
is the transport's answer to the k-th status GET (0-indexed), and
`checkTime k` is the value `time.time()` returns at the deadline check of
iteration k (the only clock reads besides the one at loop entry). -/
structure PollEnv where
  responses : Nat → HttpResponse
  checkTime : Nat → ℚ

/-- The way an iteration of the `while True` loop ends. -/
inductive PollOutcome where
  | done : PollOutcome
  | timedOut : PollOutcome
  | malformed : PollOutcome
  | httpError (code : Nat) : PollOutcome
  | parseError : PollOutcome
  | transportError : PollOutcome
  deriving DecidableEq

/-- A finished run of `poll_until_done`: how it ended, how many status GETs
it issued, and how many `time.sleep(interval_s)` suspensions it executed. -/
structure PollResult where
  outcome : PollOutcome
  polls : Nat
  sleeps : Nat
  deriving DecidableEq

/-- One iteration of the loop body (lines 103–120), in source order: GET
(transport error propagates), `raise_for_status`, `resp.json()`, the guarded
`isDone` extraction (failure → RuntimeError "Unexpected job status
payload"), `if is_done: return`, `if time.time() > deadline: raise
TimeoutError`, otherwise sleep and continue. `none` means the iteration
falls through to the next one. -/
def stepOut (env : PollEnv) (deadline : ℚ) (k : Nat) : Option PollOutcome :=
  match env.responses k with
  | .transportError => some .transportError
  | .response status body =>
    if raisesForStatus status then some (.httpError status)
    else match body with
      | none => some .parseError
      | some data =>
        match statusIsDone data with
        | none => some .malformed
        | some v =>
          if pyBool v then some .done
          else if deadline < env.checkTime k then some .timedOut
          else none

/-- The `while True` loop from iteration `k`, with fuel (the Python loop
need not terminate when the clock never passes the deadline; every claim
supplies enough fuel). Ending at iteration k means k+1 status GETs and k
sleeps were executed. -/
def pollLoop (env : PollEnv) (deadline : ℚ) : Nat → Nat → Option PollResult
  | 0, _ => none
  | fuel + 1, k =>
    match stepOut env deadline k with
    | some o => some ⟨o, k + 1, k⟩
    | none => pollLoop env deadline fuel (k + 1)

/-- `poll_until_done` (lines 94–120): `deadline = time.time() + max_wait_s`
with `startTime` the clock at loop entry, then the loop from iteration 0. -/
def poll_until_done (env : PollEnv) (startTime maxWait : ℚ) (fuel : Nat) :
    Option PollResult :=
  pollLoop env (startTime + maxWait) fuel 0

/-- The loop reaches iteration `k`: every earlier iteration fell through. -/
def runsTo (env : PollEnv) (deadline : ℚ) (k : Nat) : Prop :=
  ∀ j, j < k → stepOut env deadline j = none

/-- `fetch_results_json` (lines 123–128): GET, `raise_for_status`,
`resp.json()`. -/
inductive FetchResult where
  | ok (data : Json) : FetchResult
  | httpError (code : Nat) : FetchResult
  | parseError : FetchResult
  | transportError : FetchResult

def fetch_results_json (resp : HttpResponse) : FetchResult :=
  match resp with
  | .transportError => .transportError
  | .response status body =>
    if raisesForStatus status then .httpError status
    else match body with
      | none => .parseError
      | some data => .ok data

/-- Python `int(x)` on a JSON value: digit strings (optional sign,
surrounding whitespace) parse, floats truncate toward zero, bools are 0/1;
`None`, lists, dicts and non-numeric strings raise (`none`). -/
def pyInt : Json → Option Int
  | .num q => some (if q < 0 then -((-q).floor) else q.floor)
  | .bool b => some (if b then 1 else 0)
  | .str s =>
    let t := ((s.data.dropWhile (·.isWhitespace)).reverse.dropWhile
      (·.isWhitespace)).reverse
    let core := match t with
      | '-' :: rest => rest
      | '+' :: rest => rest
      | _ => t
    if core ≠ [] ∧ core.all (·.isDigit) then
      let n : Int := core.foldl (fun acc c => 10 * acc + (c.toNat - 48)) 0
      some (match t with
        | '-' :: _ => -n
        | _ => n)
    else none
  | _ => none

/-- Lines 156–158 of `main`: `count = 0; if results.get("results"): count =
int(results["results"][0].get("event_count", "0"))`. `none` models an
uncaught exception inside the extraction (caught by `main`'s blanket
`except`). -/
def extractCount (results : Json) : Option Int :=
  match results with
  | .obj kvs =>
    match (kvs.find? (fun kv => kv.1 = "results")).map (·.2) with
    | none => some 0
    | some v =>
      if pyBool v then
        match pySub0 v with
        | none => none
        | some e0 =>
          match e0 with
          | .obj kvs2 =>
            pyInt ((((kvs2.find? (fun kv => kv.1 = "event_count")).map
              (·.2))).getD (.str "0"))
          | _ => none
      else some 0
  | _ => none

/-- Everything `main` consumes in one run: the configuration (host, user,
password as `argparse` leaves them: `none` when neither flag nor environment
variable supplied), the clock at poll-loop entry, and the transport's
responses to the submit POST, the status GETs and the results GET. -/
structure RunEnv where
  host : Option String
  user : Option String
  password : Option String
  startTime : ℚ
  submitResp : HttpResponse
  pollEnv : PollEnv
  fetchResp : HttpResponse

/-- What one run of `main` did: its `int` return value (the process exit
code) and how many network requests of each stage it issued. -/
structure RunResult where
  exitCode : Nat
  submits : Nat
  polls : Nat
  fetches : Nat
  deriving DecidableEq

/-- Python `not x` on an `Optional[str]`: true for `None` and `""`. -/
def pyNotStrOpt : Option String → Bool
  | none => true
  | some s => s = ""

/-- `make_session` (lines 58–70): `sys.exit(2)` when host, user or password
is falsy; no network traffic happens in it. -/
def missingConfig (host user password : Option String) : Bool :=
  pyNotStrOpt host ∨ pyNotStrOpt user ∨ pyNotStrOpt password

/-- `main` (lines 133–190): parse args and build the session (exit 2 on
missing config, before any request), then submit → poll (defaults
`max_wait_s = 120`, `interval_s = 1.5`) → fetch → derive the event count;
every raised error is mapped to exit 1 by the `except` clauses, success with
`count > 0` to exit 0 and a zero count to exit 1. -/
def runMain (env : RunEnv) (fuel : Nat) : Option RunResult :=
  if missingConfig env.host env.user env.password then
    some ⟨2, 0, 0, 0⟩
  else
    match create_search_job env.submitResp with
    | .ok _ =>
      match poll_until_done env.pollEnv env.startTime 120 fuel with
      | none => none
      | some pr =>
        match pr.outcome with
        | .done =>
          match fetch_results_json env.fetchResp with
          | .ok results =>
            match extractCount results with
            | some c => some ⟨if 0 < c then 0 else 1, 1, pr.polls, 1⟩
            | none => some ⟨1, 1, pr.polls, 1⟩
          | _ => some ⟨1, 1, pr.polls, 1⟩
        | _ => some ⟨1, 1, pr.polls, 0⟩
    | _ => some ⟨1, 1, 0, 0⟩

end IV

namespace STC
/-! Embedding of the submit/poll/fetch block of `src/labs/search_to_csv.py`
(lines 90–143), translated independently from that file. -/

/-- The form payload built by `create_search_job` (lines 94–98). -/
def submitPayload (search : String) (earliest latest : Option String) :
    List (String × String) :=
  let payload := [("search", search)]
  let payload := match earliest with
    | some e => if e ≠ "" then payload ++ [("earliest_time", e)] else payload
    | none => payload
  match latest with
  | some l => if l ≠ "" then payload ++ [("latest_time", l)] else payload
  | none => payload

/-- `create_search_job` (lines 90–106). -/
def create_search_job (resp : HttpResponse) : IV.SubmitResult :=
  match resp with
  | .transportError => .transportError
  | .response status body =>
    if raisesForStatus status then .httpError status
    else match body with
      | none => .parseError
      | some data =>
        match pyDictGet data "sid" with
        | none => .attrError
        | some sid =>
          if pyBool sid then .ok sid
          else .noSid ((jsonDumps data).take 300)

/-- `data["entry"][0]["content"]["isDone"]` (line 123). -/
def statusIsDone (data : Json) : Option Json :=
  (((pySub data "entry").bind pySub0).bind (pySub · "content")).bind
    (pySub · "isDone")

/-- One iteration of the `while True` loop of `poll_until_done`
(lines 118–135). -/
def stepOut (env : IV.PollEnv) (deadline : ℚ) (k : Nat) :
    Option IV.PollOutcome :=
  match env.responses k with
  | .transportError => some .transportError
  | .response status body =>
    if raisesForStatus status then some (.httpError status)
    else match body with
      | none => some .parseError
      | some data =>
        match statusIsDone data with
        | none => some .malformed
        | some v =>
          if pyBool v then some .done
          else if deadline < env.checkTime k then some .timedOut
          else none

/-- The loop of `poll_until_done` (lines 118–135), fuelled as in `IV`. -/
def pollLoop (env : IV.PollEnv) (deadline : ℚ) :
    Nat → Nat → Option IV.PollResult
  | 0, _ => none
  | fuel + 1, k =>
    match stepOut env deadline k with
    | some o => some ⟨o, k + 1, k⟩
    | none => pollLoop env deadline fuel (k + 1)

/-- `poll_until_done` (lines 109–135). -/
def poll_until_done (env : IV.PollEnv) (startTime maxWait : ℚ) (fuel : Nat) :
    Option IV.PollResult :=
  pollLoop env (startTime + maxWait) fuel 0

/-- `fetch_results_json` (lines 138–143). -/
def fetch_results_json (resp : HttpResponse) : IV.FetchResult :=
  match resp with
  | .transportError => .transportError
  | .response status body =>
    if raisesForStatus status then .httpError status
    else match body with
      | none => .parseError
      | some data => .ok data

end STC

/-! Embedding of `src/labs/W5-DoD2-Burnrate.py`. -/

/-- `pat` is a prefix of `s` (on character lists). -/
def startsWithChars : List Char → List Char → Bool
  | [], _ => true
  | _ :: _, [] => false
  | a :: as, b :: bs => a = b && startsWithChars as bs

/-- `pat` occurs contiguously somewhere in `s` (on character lists). -/
def hasSubChars (pat : List Char) : List Char → Bool
  | [] => pat.isEmpty
  | b :: bs => startsWithChars pat (b :: bs) || hasSubChars pat bs

/-- Python `"pat" in line`: substring containment. -/
def pyInStr (pat line : String) : Bool :=
  hasSubChars pat.data line.data

/-- One line is counted as an error when it contains `"500"` or `"ERROR"`
(line 10). -/
def isErrorLine (line : String) : Bool :=
  pyInStr "500" line || pyInStr "ERROR" line

/-- `calculate_burn_rate` (lines 3–19), on the list of lines of the opened
file: count lines and error lines, return 0 for an empty file, otherwise
`(errors / total) / 0.001`. -/
def calculate_burn_rate (lines : List String) : ℚ :=
  let total : ℚ := lines.length
  let errors : ℚ := (lines.filter isErrorLine).length
  if total = 0 then 0
  else
    let error_rate := errors / total
    let slo_target : ℚ := 1 / 1000
    error_rate / slo_target

/-- A status response that parses, is 2xx, and carries a falsy `isDone`
(the job reports it is not done). -/
def reportsNotDone (r : HttpResponse) : Prop :=
  ∃ status data v, r = .response status (some data) ∧ status < 400 ∧
    IV.statusIsDone data = some v ∧ pyBool v = false

/-- A 2xx status body whose `isDone` chain is intact and falsy. -/
def notDoneBody : Json :=
  .obj [("entry", .arr [.obj [("content", .obj [("isDone", .bool false)])]])]

/-- A 2xx status body whose `isDone` chain is intact and truthy. -/
def doneBody : Json :=
  .obj [("entry", .arr [.obj [("content", .obj [("isDone", .bool true)])]])]

/-- A 2xx status body with no `entry` field at all (e.g. only `messages`):
the `isDone` extraction fails. -/
def malformedBody : Json :=
  .obj [("messages", .arr [.str "job status unavailable"])]

/-- Environment whose status endpoint always answers 200 with a malformed
body; the clock never matters. -/
def envMalformed : IV.PollEnv :=
  ⟨fun _ => .response 200 (some malformedBody), fun _ => 0⟩

/-- Environment whose status endpoint always answers not-done and whose
first deadline check already happens past the deadline. -/
def envLateNotDone : IV.PollEnv :=
  ⟨fun _ => .response 200 (some notDoneBody), fun _ => 121⟩

/-- Environment for spec scenario B with an idealized clock: the service
never reports done and each status request is instantaneous, so the clock
at the deadline check of iteration k reads exactly k (poll interval 1,
start time 0). -/
def envNeverDone : IV.PollEnv :=
  ⟨fun _ => .response 200 (some notDoneBody), fun k => (k : ℚ)⟩

/-- Environment whose status endpoint reports done on the very first check. -/
def envDoneFirst : IV.PollEnv :=
  ⟨fun _ => .response 200 (some doneBody), fun _ => 0⟩

/-- Poll environment for scenario D: the first status check answers
not-done, the second answers HTTP 500. -/
def envHttp500Mid : IV.PollEnv :=
  ⟨fun k => if k = 0 then .response 200 (some notDoneBody)
    else .response 500 (some (.obj [])), fun _ => 0⟩

/-- A submit response whose body parses but has no `sid` field
(scenario C). -/
def submitRespNoSid : HttpResponse :=
  .response 201 (some (.obj [("messages", .arr [.str "no sid here"])]))

/-- A submit response carrying `sid = "job42"`. -/
def submitRespOk : HttpResponse :=
  .response 201 (some (.obj [("sid", .str "job42")]))

/-- A results response with one record `event_count = "5"`. -/
def fetchRespCount5 : HttpResponse :=
  .response 200 (some (.obj [("results",
    .arr [.obj [("event_count", .str "5")]])]))

/-- Scenario C run: configuration present, submission response without a
`sid` field. -/
def envRunNoSid : IV.RunEnv :=
  ⟨some "https://stack.example.com", some "admin", some "secret", 0,
    submitRespNoSid, envNeverDone, fetchRespCount5⟩

/-- Scenario D run: configuration present, submission succeeds, second
status check answers HTTP 500. -/
def envRunHttp500 : IV.RunEnv :=
  ⟨some "https://stack.example.com", some "admin", some "secret", 0,
    submitRespOk, envHttp500Mid, fetchRespCount5⟩

/-- A run with the host missing from flags and environment. -/
def envRunMissing : IV.RunEnv :=
  ⟨none, some "admin", some "secret", 0,
    submitRespOk, envDoneFirst, fetchRespCount5⟩

/-- A fully successful run: submission succeeds, the job is done at the
first poll, and the fetched results carry `event_count = "5"`. -/
def envRunSuccess : IV.RunEnv :=
  ⟨some "https://stack.example.com", some "admin", some "secret", 0,
    submitRespOk, envDoneFirst, fetchRespCount5⟩

/-- A run whose poll loop times out on its first check. -/
def envRunLate : IV.RunEnv :=
  ⟨some "https://stack.example.com", some "admin", some "secret", 0,
    submitRespOk, envLateNotDone, fetchRespCount5⟩

/-- Demonstration log lines for the burn-rate witness: one clean request
and one server error. -/
def demoLines : List String :=
  ["GET /health 200 OK", "GET /orders 500 Internal Server Error"]

/-! ## Theorems -/

theorem length_take_300 (s : String) : (s.take 300).length ≤ 300 := by
  rw [String.take_eq]
  show (s.1.take 300).length ≤ 300
  rw [List.length_take]
  omega

/-- If iterations `j, …, j+n-1` all fall through and iteration `j+n` ends
with outcome `o`, the fuelled loop started at `j` ends with `o` after
`j+n+1` status checks and `j+n` sleeps. -/
theorem pollLoop_halt (env : IV.PollEnv) (d : ℚ) (o : IV.PollOutcome) :
    ∀ (n fuel j : Nat), (∀ i, i < n → IV.stepOut env d (j + i) = none) →
      IV.stepOut env d (j + n) = some o → n < fuel →
      IV.pollLoop env d fuel j = some ⟨o, j + n + 1, j + n⟩ := by
  intro n
  induction n with
  | zero =>
    intro fuel j _ hstep hfuel
    simp only [Nat.add_zero] at hstep
    match fuel, hfuel with
    | fuel + 1, _ => simp [IV.pollLoop, hstep]
  | succ n ih =>
    intro fuel j hnone hstep hfuel
    match fuel, hfuel with
    | fuel + 1, hfuel =>
      have h0 : IV.stepOut env d j = none := by
        simpa using hnone 0 (Nat.succ_pos n)
      have hnone' : ∀ i, i < n → IV.stepOut env d (j + 1 + i) = none := by
        intro i hi
        have := hnone (i + 1) (by omega)
        have harith : j + (i + 1) = j + 1 + i := by omega
        rwa [harith] at this
      have hstep' : IV.stepOut env d (j + 1 + n) = some o := by
        have harith : j + (n + 1) = j + 1 + n := by omega
        rwa [harith] at hstep
      have := ih fuel (j + 1) hnone' hstep' (by omega)
      simp only [IV.pollLoop, h0]
      rw [this]
      have h1 : j + 1 + n + 1 = j + (n + 1) + 1 := by omega
      have h2 : j + 1 + n = j + (n + 1) := by omega
      rw [h1, h2]

/-- C1: a status response that parses but whose `entry[0].content.isDone`
path is missing or of the wrong shape makes `poll_until_done` raise the
malformed-payload `RuntimeError` at that iteration (after `k+1` status
checks); the loop neither returns success nor keeps polling on such a
response, so it is never read as done=true or done=false. -/
theorem poll_malformed_payload_fails
    (env : IV.PollEnv) (startTime maxWait : ℚ) (fuel k status : Nat)
    (body : Json)
    (hrun : IV.runsTo env (startTime + maxWait) k)
    (hresp : env.responses k = .response status (some body))
    (hstatus : status < 400)
    (hmal : IV.statusIsDone body = none)
    (hfuel : k < fuel) :
    IV.poll_until_done env startTime maxWait fuel =
      some ⟨.malformed, k + 1, k⟩ := by
  have hrfs : raisesForStatus status = false := by
    simp [raisesForStatus]; omega
  have hstep : IV.stepOut env (startTime + maxWait) k = some .malformed := by
    simp [IV.stepOut, hresp, hrfs, hmal]
  have hnone : ∀ i, i < k → IV.stepOut env (startTime + maxWait) (0 + i) = none := by
    intro i hi
    simpa using hrun i hi
  have := pollLoop_halt env (startTime + maxWait) .malformed k fuel 0 hnone
    (by simpa using hstep) hfuel
  simpa [IV.poll_until_done] using this

/-- Witness for C1: a 200 response whose body lacks `entry` makes the very
first poll fail as malformed. -/
theorem poll_malformed_payload_fails_witness :
    IV.poll_until_done envMalformed 0 120 1 = some ⟨.malformed, 1, 0⟩ :=
  poll_malformed_payload_fails envMalformed 0 120 1 0 200 malformedBody
    (fun j hj => absurd hj (by omega)) rfl (by omega) rfl (by omega)

/-- C2: the deadline test sits after the status check of each iteration.
Whenever the loop reaches iteration `k`, that status check answers a
well-formed not-done payload, and the clock at that deadline check is
already past the deadline, the loop raises `TimeoutError` right there —
after exactly `k+1` status checks.  With `k = 0` this is the edge case: a
deadline that passed before the first poll still permits exactly one status
check before the timeout is declared. -/
theorem poll_deadline_checked_after_status
    (env : IV.PollEnv) (startTime maxWait : ℚ) (fuel k status : Nat)
    (data v : Json)
    (hrun : IV.runsTo env (startTime + maxWait) k)
    (hresp : env.responses k = .response status (some data))
    (hstatus : status < 400)
    (hdone : IV.statusIsDone data = some v)
    (hfalse : pyBool v = false)
    (hlate : startTime + maxWait < env.checkTime k)
    (hfuel : k < fuel) :
    IV.poll_until_done env startTime maxWait fuel =
      some ⟨.timedOut, k + 1, k⟩ := by
  have hrfs : raisesForStatus status = false := by
    simp [raisesForStatus]; omega
  have hstep : IV.stepOut env (startTime + maxWait) k = some .timedOut := by
    simp [IV.stepOut, hresp, hrfs, hdone, hfalse, hlate]
  have hnone : ∀ i, i < k →
      IV.stepOut env (startTime + maxWait) (0 + i) = none := by
    intro i hi; simpa using hrun i hi
  have := pollLoop_halt env (startTime + maxWait) .timedOut k fuel 0 hnone
    (by simpa using hstep) hfuel
  simpa [IV.poll_until_done] using this

/-- Witness for C2: with `max_wait = 120` and a clock already at 121 when
the first deadline check runs, the first (and only) status check is
performed and the loop times out after it. -/
theorem poll_deadline_checked_after_status_witness :
    IV.poll_until_done envLateNotDone 0 120 1 = some ⟨.timedOut, 1, 0⟩ :=
  poll_deadline_checked_after_status envLateNotDone 0 120 1 0 200 notDoneBody
    (.bool false) (fun j hj => absurd hj (by omega)) rfl (by omega) rfl rfl
    (by norm_num [envLateNotDone]) (by omega)

theorem stepOut_envNeverDone (d : ℚ) (k : Nat) :
    IV.stepOut envNeverDone d k =
      if d < (k : ℚ) then some .timedOut else none := by
  simp [IV.stepOut, envNeverDone, raisesForStatus, IV.statusIsDone,
    notDoneBody, pySub, pySub0, pyBool]

/-- Counterexample to C3 as stated: the never-done status source of spec
scenario B under the idealized clock (each status request instantaneous,
poll interval 1, `max_wait = 3`) makes `poll_until_done` perform 5 status
checks, not "exactly 3 to 4": the strict `time.time() > deadline` test at
clock reading 3 does not fire, so a fourth sleep happens and the timeout is
only raised at the fifth check. -/
theorem poll_count_scenarioB_counterexample :
    IV.poll_until_done envNeverDone 0 3 10 = some ⟨.timedOut, 5, 4⟩ ∧
      ¬ (5 ≤ 4) := by
  refine ⟨?_, by omega⟩
  have hnone : ∀ i, i < 4 →
      IV.stepOut envNeverDone ((0 : ℚ) + 3) (0 + i) = none := by
    intro i hi
    have hle : (i : ℚ) ≤ 3 := by exact_mod_cast (show i ≤ 3 by omega)
    have h : ¬ ((0 : ℚ) + 3 < ((0 + i : Nat) : ℚ)) := by
      push_cast
      linarith
    rw [stepOut_envNeverDone, if_neg h]
  have hstep : IV.stepOut envNeverDone ((0 : ℚ) + 3) (0 + 4) =
      some .timedOut := by
    rw [stepOut_envNeverDone, if_pos]
    norm_num
  have := pollLoop_halt envNeverDone ((0 : ℚ) + 3) .timedOut 4 10 0 hnone
    hstep (by omega)
  simpa [IV.poll_until_done] using this

/-- C3 as amended: for every status source that never reports done, under
the idealized clock of scenario B (`checkTime k = k`: instantaneous
requests, interval 1), `poll_until_done` with `max_wait = 3` raises
`TimeoutError` once `now() > deadline`, after exactly 5 status checks
(`⌊max_wait/interval⌋ + 2`, i.e. within plus-or-minus two of
`max_wait / poll_interval`), with elapsed time at least 3. -/
theorem poll_never_done_ideal_clock_five_polls
    (env : IV.PollEnv) (fuel : Nat)
    (hnd : ∀ k, reportsNotDone (env.responses k))
    (hclock : ∀ k, env.checkTime k = k)
    (hfuel : 5 ≤ fuel) :
    IV.poll_until_done env 0 3 fuel = some ⟨.timedOut, 5, 4⟩ ∧
      (3 : ℚ) ≤ env.checkTime 4 - 0 := by
  have hstep : ∀ k, IV.stepOut env ((0 : ℚ) + 3) k =
      if (0 : ℚ) + 3 < env.checkTime k then some .timedOut else none := by
    intro k
    obtain ⟨status, data, v, hresp, hlt, hdone, hfalse⟩ := hnd k
    have hrfs : raisesForStatus status = false := by
      simp [raisesForStatus]; omega
    simp [IV.stepOut, hresp, hrfs, hdone, hfalse]
  constructor
  · have hnone : ∀ i, i < 4 →
        IV.stepOut env ((0 : ℚ) + 3) (0 + i) = none := by
      intro i hi
      have hle : (i : ℚ) ≤ 3 := by exact_mod_cast (show i ≤ 3 by omega)
      have h : ¬ ((0 : ℚ) + 3 < env.checkTime (0 + i)) := by
        rw [hclock]
        push_cast
        linarith
      rw [hstep, if_neg h]
    have hs : IV.stepOut env ((0 : ℚ) + 3) (0 + 4) = some .timedOut := by
      rw [hstep, if_pos]
      rw [hclock]
      norm_num
    have := pollLoop_halt env ((0 : ℚ) + 3) .timedOut 4 fuel 0 hnone hs
      (by omega)
    simpa [IV.poll_until_done] using this
  · rw [hclock]
    norm_num

/-- Witness for amended C3: the concrete never-done environment with the
idealized clock makes 5 status checks and times out, with elapsed ≥ 3. -/
theorem poll_never_done_ideal_clock_five_polls_witness :
    IV.poll_until_done envNeverDone 0 3 10 = some ⟨.timedOut, 5, 4⟩ ∧
      (3 : ℚ) ≤ envNeverDone.checkTime 4 - 0 :=
  poll_never_done_ideal_clock_five_polls envNeverDone 10
    (fun _ => ⟨200, notDoneBody, .bool false, rfl, by omega, rfl, rfl⟩)
    (fun _ => rfl) (by omega)

/-- C4: a status source that reports done on the very first check makes
`poll_until_done` return success after exactly one status request and zero
`time.sleep` suspensions, whatever the deadline. -/
theorem poll_done_first_check
    (env : IV.PollEnv) (startTime maxWait : ℚ) (fuel status : Nat)
    (data v : Json)
    (hresp : env.responses 0 = .response status (some data))
    (hstatus : status < 400)
    (hdone : IV.statusIsDone data = some v)
    (htrue : pyBool v = true)
    (hfuel : 0 < fuel) :
    IV.poll_until_done env startTime maxWait fuel = some ⟨.done, 1, 0⟩ := by
  have hrfs : raisesForStatus status = false := by
    simp [raisesForStatus]; omega
  have hstep : IV.stepOut env (startTime + maxWait) 0 = some .done := by
    simp [IV.stepOut, hresp, hrfs, hdone, htrue]
  have := pollLoop_halt env (startTime + maxWait) .done 0 fuel 0
    (fun i hi => absurd hi (by omega)) (by simpa using hstep) hfuel
  simpa [IV.poll_until_done] using this

/-- Witness for C4: a first response with `isDone = true` returns success
with one poll and zero sleeps. -/
theorem poll_done_first_check_witness :
    IV.poll_until_done envDoneFirst 0 120 1 = some ⟨.done, 1, 0⟩ :=
  poll_done_first_check envDoneFirst 0 120 1 200 doneBody (.bool true)
    rfl (by omega) rfl rfl (by omega)

/-- C5: `create_search_job` never hands back a falsy SID silently — a
returned handle is truthy (so neither `None` nor the empty string) — and
when the parsed body lacks a usable `sid` the raised error carries a
preview of the serialized response of at most 300 characters; every other
path raises. -/
theorem submit_nonempty_handle_or_error (resp : HttpResponse) :
    (∀ sid, IV.create_search_job resp = .ok sid →
      pyBool sid = true ∧ sid ≠ .null ∧ sid ≠ .str "") ∧
    (∀ p, IV.create_search_job resp = .noSid p → p.length ≤ 300) := by
  constructor
  · intro sid hok
    cases resp with
    | transportError => simp [IV.create_search_job] at hok
    | response status body =>
      simp only [IV.create_search_job] at hok
      split at hok
      · simp at hok
      · split at hok
        · simp at hok
        · rename_i data
          cases hg : pyDictGet data "sid" with
          | none => rw [hg] at hok; simp at hok
          | some s =>
            rw [hg] at hok
            dsimp only at hok
            by_cases hb : pyBool s = true
            · rw [if_pos hb] at hok
              injection hok with h
              subst h
              refine ⟨hb, fun hn => ?_, fun hn => ?_⟩
              · rw [hn] at hb; simp [pyBool] at hb
              · rw [hn] at hb; simp [pyBool] at hb
            · rw [if_neg hb] at hok; simp at hok
  · intro p hns
    cases resp with
    | transportError => simp [IV.create_search_job] at hns
    | response status body =>
      simp only [IV.create_search_job] at hns
      split at hns
      · simp at hns
      · split at hns
        · simp at hns
        · rename_i data
          cases hg : pyDictGet data "sid" with
          | none => rw [hg] at hns; simp at hns
          | some s =>
            rw [hg] at hns
            dsimp only at hns
            by_cases hb : pyBool s = true
            · rw [if_pos hb] at hns; simp at hns
            · rw [if_neg hb] at hns
              injection hns with h
              exact h ▸ length_take_300 _

/-- Witness for C5: a response with `sid = "job42"` yields a truthy,
non-empty handle; a parsed response with no `sid` field yields an error
preview of at most 300 characters. -/
theorem submit_nonempty_handle_or_error_witness :
    (pyBool (.str "job42") = true ∧ (Json.str "job42") ≠ .null ∧
      (Json.str "job42") ≠ .str "") ∧
    ((jsonDumps (Json.obj [("messages",
      .arr [.str "no sid here"])])).take 300).length ≤ 300 :=
  ⟨(submit_nonempty_handle_or_error submitRespOk).1 (.str "job42") rfl,
   (submit_nonempty_handle_or_error submitRespNoSid).2 _ rfl⟩

/-- Counterexample to C6 as stated: with `earliest` present but equal to the
empty string (`--earliest ""`), the Python guard `if earliest:` is falsy, so
the field is dropped from the form body even though the value is present
(not `None`). -/
theorem submit_empty_earliest_omitted_counterexample :
    (some "" ≠ (none : Option String)) ∧
    IV.submitPayload "search index=main" (some "") none =
      [("search", "search index=main")] :=
  ⟨by simp, rfl⟩

/-- C6 as amended: the `search` field is always sent; `earliest_time` /
`latest_time` are forwarded verbatim exactly when the corresponding input
is present and non-empty, and are omitted from the request when the input
is absent or the empty string. -/
theorem submit_time_range_forwarding_amended
    (q : String) (e l : Option String) (s : String) :
    ("search", q) ∈ IV.submitPayload q e l ∧
    (("earliest_time", s) ∈ IV.submitPayload q e l ↔ e = some s ∧ s ≠ "") ∧
    (("latest_time", s) ∈ IV.submitPayload q e l ↔ l = some s ∧ s ≠ "") := by
  rcases e with _ | ev <;> rcases l with _ | lv <;>
    simp only [IV.submitPayload] <;>
    [skip; by_cases hl : lv = ""; by_cases he : ev = "";
      (by_cases he : ev = "" <;> by_cases hl : lv = "")] <;>
    simp_all [eq_comm]


/-- C7: stage failures short-circuit the rest of the run.  If the
submission step does not produce a SID, `main` performs zero status polls
and exits 1 (scenario C); and if the loop reaches a status check that
answers a non-2xx code, the loop raises there — after exactly `k+1` status
checks, with no further polls, no retry and no fetch — and `main` exits 1
(scenario D). -/
theorem stage_failure_short_circuits
    (env : IV.RunEnv) (fuel k status : Nat) (body : Option Json) (sid : Json)
    (hcfg : IV.missingConfig env.host env.user env.password = false) :
    ((∀ s, IV.create_search_job env.submitResp ≠ .ok s) →
      IV.runMain env fuel = some ⟨1, 1, 0, 0⟩) ∧
    (IV.create_search_job env.submitResp = .ok sid →
      IV.runsTo env.pollEnv (env.startTime + 120) k →
      env.pollEnv.responses k = .response status body →
      400 ≤ status → k < fuel →
      IV.runMain env fuel = some ⟨1, 1, k + 1, 0⟩) := by
  constructor
  · intro hnone
    cases hc : IV.create_search_job env.submitResp with
    | ok s => exact absurd hc (hnone s)
    | noSid p => simp [IV.runMain, hcfg, hc]
    | httpError c => simp [IV.runMain, hcfg, hc]
    | parseError => simp [IV.runMain, hcfg, hc]
    | attrError => simp [IV.runMain, hcfg, hc]
    | transportError => simp [IV.runMain, hcfg, hc]
  · intro hsub hrun hresp h400 hfuel
    have hrfs : raisesForStatus status = true := by
      simp [raisesForStatus]; omega
    have hstep : IV.stepOut env.pollEnv (env.startTime + 120) k =
        some (.httpError status) := by
      simp [IV.stepOut, hresp, hrfs]
    have hnone : ∀ i, i < k →
        IV.stepOut env.pollEnv (env.startTime + 120) (0 + i) = none := by
      intro i hi; simpa using hrun i hi
    have hpoll : IV.poll_until_done env.pollEnv env.startTime 120 fuel =
        some ⟨.httpError status, k + 1, k⟩ := by
      have := pollLoop_halt env.pollEnv (env.startTime + 120)
        (.httpError status) k fuel 0 hnone (by simpa using hstep) hfuel
      simpa [IV.poll_until_done] using this
    simp [IV.runMain, hcfg, hsub, hpoll]

/-- Witness for C7: the no-SID submission run makes zero polls and exits 1;
the run whose second status check is HTTP 500 stops after two polls (none
after the error), fetches nothing, and exits 1. -/
theorem stage_failure_short_circuits_witness :
    IV.runMain envRunNoSid 1 = some ⟨1, 1, 0, 0⟩ ∧
    IV.runMain envRunHttp500 5 = some ⟨1, 1, 2, 0⟩ := by
  constructor
  · exact (stage_failure_short_circuits envRunNoSid 1 0 0 none .null rfl).1
      (fun s h => nomatch h)
  · refine (stage_failure_short_circuits envRunHttp500 5 1 500
      (some (.obj [])) (.str "job42") rfl).2 rfl ?_ rfl (by omega) (by omega)
    intro j hj
    have hj0 : j = 0 := by omega
    subst hj0
    norm_num [IV.stepOut, envRunHttp500, envHttp500Mid, raisesForStatus,
      IV.statusIsDone, notDoneBody, pySub, pySub0, pyBool]

/-- C8: the run's outcome codes.  Missing host/user/password exits 2 with
zero submit, poll and fetch requests (the check in `make_session` runs
before any network call); a submission, poll or fetch failure exits 1; a
run where every stage succeeds and the derived event count is positive
exits 0. -/
theorem exit_code_mapping
    (env : IV.RunEnv) (fuel : Nat) (sid : Json) (pr : IV.PollResult)
    (results : Json) (c : Int) :
    (IV.missingConfig env.host env.user env.password = true →
      IV.runMain env fuel = some ⟨2, 0, 0, 0⟩) ∧
    (IV.missingConfig env.host env.user env.password = false →
      ((∀ s, IV.create_search_job env.submitResp ≠ .ok s) →
        IV.runMain env fuel = some ⟨1, 1, 0, 0⟩) ∧
      (IV.create_search_job env.submitResp = .ok sid →
        IV.poll_until_done env.pollEnv env.startTime 120 fuel = some pr →
        ((pr.outcome ≠ .done →
            IV.runMain env fuel = some ⟨1, 1, pr.polls, 0⟩) ∧
         (pr.outcome = .done →
            (∀ r, IV.fetch_results_json env.fetchResp ≠ .ok r) →
            IV.runMain env fuel = some ⟨1, 1, pr.polls, 1⟩) ∧
         (pr.outcome = .done →
            IV.fetch_results_json env.fetchResp = .ok results →
            IV.extractCount results = some c → 0 < c →
            IV.runMain env fuel = some ⟨0, 1, pr.polls, 1⟩)))) := by
  constructor
  · intro hmiss
    simp [IV.runMain, hmiss]
  · intro hcfg
    constructor
    · intro hnone
      cases hc : IV.create_search_job env.submitResp with
      | ok s => exact absurd hc (hnone s)
      | noSid p => simp [IV.runMain, hcfg, hc]
      | httpError code => simp [IV.runMain, hcfg, hc]
      | parseError => simp [IV.runMain, hcfg, hc]
      | attrError => simp [IV.runMain, hcfg, hc]
      | transportError => simp [IV.runMain, hcfg, hc]
    · intro hsub hpoll
      obtain ⟨o, polls, sleeps⟩ := pr
      refine ⟨?_, ?_, ?_⟩
      · intro hne
        cases o with
        | done => exact absurd rfl hne
        | timedOut => simp [IV.runMain, hcfg, hsub, hpoll]
        | malformed => simp [IV.runMain, hcfg, hsub, hpoll]
        | httpError code => simp [IV.runMain, hcfg, hsub, hpoll]
        | parseError => simp [IV.runMain, hcfg, hsub, hpoll]
        | transportError => simp [IV.runMain, hcfg, hsub, hpoll]
      · intro hdone hfetch
        cases hdone
        cases hf : IV.fetch_results_json env.fetchResp with
        | ok r => exact absurd hf (hfetch r)
        | httpError code => simp [IV.runMain, hcfg, hsub, hpoll, hf]
        | parseError => simp [IV.runMain, hcfg, hsub, hpoll, hf]
        | transportError => simp [IV.runMain, hcfg, hsub, hpoll, hf]
      · intro hdone hf hcount hpos
        cases hdone
        simp [IV.runMain, hcfg, hsub, hpoll, hf, hcount, hpos]

/-- Witness for C8: a run with no host exits 2 before any request; the
timing-out run exits 1; the fully successful run (job done at the first
poll, one record with `event_count = "5"`) exits 0. -/
theorem exit_code_mapping_witness :
    IV.runMain envRunMissing 1 = some ⟨2, 0, 0, 0⟩ ∧
    IV.runMain envRunLate 1 = some ⟨1, 1, 1, 0⟩ ∧
    IV.runMain envRunSuccess 1 = some ⟨0, 1, 1, 1⟩ := by
  have hlate : IV.poll_until_done envLateNotDone 0 120 1 =
      some ⟨.timedOut, 1, 0⟩ := by
    have hstep : IV.stepOut envLateNotDone ((0 : ℚ) + 120) (0 + 0) =
        some .timedOut := by
      norm_num [IV.stepOut, envLateNotDone, raisesForStatus,
        IV.statusIsDone, notDoneBody, pySub, pySub0, pyBool]
    have := pollLoop_halt envLateNotDone ((0 : ℚ) + 120) .timedOut 0 1 0
      (fun i hi => absurd hi (by omega)) hstep (by omega)
    simpa [IV.poll_until_done] using this
  have hdone : IV.poll_until_done envDoneFirst 0 120 1 =
      some ⟨.done, 1, 0⟩ := by
    have hstep : IV.stepOut envDoneFirst ((0 : ℚ) + 120) (0 + 0) =
        some .done := by
      simp [IV.stepOut, envDoneFirst, raisesForStatus, IV.statusIsDone,
        doneBody, pySub, pySub0, pyBool]
    have := pollLoop_halt envDoneFirst ((0 : ℚ) + 120) .done 0 1 0
      (fun i hi => absurd hi (by omega)) hstep (by omega)
    simpa [IV.poll_until_done] using this
  refine ⟨?_, ?_, ?_⟩
  · exact (exit_code_mapping envRunMissing 1 .null ⟨.done, 0, 0⟩ .null 0).1 rfl
  · exact (((exit_code_mapping envRunLate 1 (.str "job42")
      ⟨.timedOut, 1, 0⟩ .null 0).2 rfl).2 rfl hlate).1 (by simp)
  · exact (((exit_code_mapping envRunSuccess 1 (.str "job42")
      ⟨.done, 1, 0⟩ (.obj [("results", .arr [.obj [("event_count",
        .str "5")]])]) 5).2 rfl).2 rfl hdone).2.2 rfl rfl (by rfl) (by omega)

theorem pollLoop_iv_stc (env : IV.PollEnv) (d : ℚ) :
    ∀ fuel k, IV.pollLoop env d fuel k = STC.pollLoop env d fuel k := by
  intro fuel
  induction fuel with
  | zero => intro k; rfl
  | succ n ih =>
    intro k
    rw [IV.pollLoop, STC.pollLoop]
    rw [show STC.stepOut env d k = IV.stepOut env d k from rfl]
    cases IV.stepOut env d k with
    | some o => rfl
    | none => exact ih (k + 1)

/-- C9: the duplicated helpers of `ingestion_validator.py` and
`search_to_csv.py` are extensionally equal — for every transport response
and every poll environment, clock, deadline and fuel, each pair returns the
same result and raises the same error. -/
theorem duplicated_helpers_extensionally_equal :
    (∀ resp, IV.create_search_job resp = STC.create_search_job resp) ∧
    (∀ env startTime maxWait fuel,
      IV.poll_until_done env startTime maxWait fuel =
        STC.poll_until_done env startTime maxWait fuel) ∧
    (∀ resp, IV.fetch_results_json resp = STC.fetch_results_json resp) :=
  ⟨fun _ => rfl,
   fun env startTime maxWait fuel =>
     pollLoop_iv_stc env (startTime + maxWait) fuel 0,
   fun _ => rfl⟩

theorem startsWithChars_iff (pat : List Char) :
    ∀ s, startsWithChars pat s = true ↔ pat <+: s := by
  induction pat with
  | nil => intro s; simp [startsWithChars]
  | cons a as ih =>
    intro s
    cases s with
    | nil => simp [startsWithChars]
    | cons b bs =>
      simp [startsWithChars, List.cons_prefix_cons, ih, Bool.and_eq_true,
        decide_eq_true_eq, and_comm]

theorem hasSubChars_iff (pat : List Char) :
    ∀ s, hasSubChars pat s = true ↔ pat <:+: s := by
  intro s
  induction s with
  | nil =>
    simp [hasSubChars, List.isEmpty_iff]
  | cons b bs ih =>
    simp [hasSubChars, Bool.or_eq_true, startsWithChars_iff, ih,
      List.infix_cons_iff]

/-- C10: `calculate_burn_rate` counts a line as an error exactly when it
contains the substring `"500"` or the substring `"ERROR"`; an empty file
yields 0 (the division is guarded by the `total == 0` early return), and a
non-empty file yields `(errors / total) / 0.001`. -/
theorem burn_rate_formula (lines : List String) :
    (∀ l, isErrorLine l = true ↔
      ("500".data <:+: l.data ∨ "ERROR".data <:+: l.data)) ∧
    (lines = [] → calculate_burn_rate lines = 0) ∧
    (lines ≠ [] →
      calculate_burn_rate lines =
        (((lines.filter isErrorLine).length : ℚ) / (lines.length : ℚ)) /
          (1 / 1000)) := by
  refine ⟨?_, ?_, ?_⟩
  · intro l
    simp [isErrorLine, pyInStr, Bool.or_eq_true, hasSubChars_iff]
  · intro h
    subst h
    rfl
  · intro h
    have hlen : ((lines.length : ℚ)) ≠ 0 := by
      simpa using fun hh => h (List.length_eq_zero.mp hh)
    unfold calculate_burn_rate
    rw [if_neg hlen]

/-- Witness for C10: on a two-line log with one HTTP 500 line, the burn
rate is `(1/2) / 0.001`; the empty file yields 0; the error-line test is
the substring test. -/
theorem burn_rate_formula_witness :
    (isErrorLine "GET /orders 500 Internal Server Error" = true ↔
      ("500".data <:+: ("GET /orders 500 Internal Server Error" : String).data ∨
       "ERROR".data <:+: ("GET /orders 500 Internal Server Error" : String).data)) ∧
    calculate_burn_rate [] = 0 ∧
    calculate_burn_rate demoLines =
      (((demoLines.filter isErrorLine).length : ℚ) /
        (demoLines.length : ℚ)) / (1 / 1000) :=
  ⟨(burn_rate_formula demoLines).1 _,
   (burn_rate_formula []).2.1 rfl,
   (burn_rate_formula demoLines).2.2 (by simp [demoLines])⟩
